import Mathlib

/-!
# EchoBrief frontend — authenticated-session HTTP client (SessionClient)

Shallow embedding of `src/echobrief-frontend/src/lib/api.ts` (the axios
instance with its request interceptor and 401 refresh-and-retry response
interceptor) and of the `AuthProvider` session store
(`refreshUser` / `initAuth`).

Browser state (the two `localStorage` keys) is passed explicitly; the
backend and the shape of the refresh envelope are oracles in a `World`
record; navigation (`window.location.href = "/auth"`) and the HTTP calls
actually issued are recorded in an event trace.
-/

namespace EchoBrief

/-- The two durable `localStorage` keys: `access_token` and `refresh_token`.
`none` models an absent key (`getItem` returning `null`). -/
structure Storage where
  access_token : Option String
  refresh_token : Option String
  deriving Repr, DecidableEq

/-- An axios request config: target path, body, the `Authorization` header
(absent or present), and the `_retry` marker set by the response
interceptor before a refresh-triggered resend. -/
structure Request where
  path : String
  body : String
  auth : Option String
  retry : Bool
  deriving Repr, DecidableEq

/-- A backend HTTP response (delivered to the success handler). -/
structure Response where
  status : Nat
  body : String
  deriving Repr, DecidableEq

/-- What the transport produces for one HTTP call: a success response, or a
failure carrying `error.response?.status` (`none` for a network error with
no response) and an opaque payload identifying the error object. -/
inductive BackendReply where
  | success (resp : Response)
  | failure (status : Option Nat) (payload : String)
  deriving Repr, DecidableEq

/-- An axios error as observed by the response interceptor: `error.config`
(the request as sent), `error.response?.status`, and its payload. -/
structure AxiosError where
  config : Request
  responseStatus : Option Nat
  payload : String
  deriving Repr, DecidableEq

/-- The token pair extracted from a successful refresh response
(`response.data.data`). -/
structure TokenPair where
  access_token : String
  refresh_token : String
  deriving Repr, DecidableEq

/-- Environment oracles: the HTTP transport (shared by the `api` instance
and the raw `axios.post` refresh call), and the decoding of
`response.data.data` from a refresh response body (`none` models a
malformed envelope, whose destructuring throws into the `catch`). -/
structure World where
  transport : Request → BackendReply
  decodePair : String → Option TokenPair

/-- What a caller's promise ultimately rejects with. -/
inductive Rejection where
  | fromBackend (e : AxiosError)
  | fromRefresh (e : AxiosError)
  | decodeFailure (body : String)
  deriving Repr, DecidableEq

/-- Settlement of the promise returned to the caller. -/
inductive Outcome where
  | ok (resp : Response)
  | rejected (r : Rejection)
  deriving Repr, DecidableEq

/-- Observable side effects, in order: HTTP calls issued through the `api`
instance, the raw refresh `axios.post`, and the redirect navigation. -/
inductive Event where
  | apiSend (req : Request)
  | refreshPost (req : Request)
  | redirect (path : String)
  deriving Repr, DecidableEq

/-- Result of one `api(config)` call: the caller-visible outcome, the final
storage, and the ordered trace of side effects. -/
structure RunResult where
  outcome : Outcome
  storage : Storage
  trace : List Event
  deriving Repr, DecidableEq

/-- JavaScript truthiness of a `localStorage.getItem` result: `null` and
the empty string are falsy. -/
def truthy : Option String → Bool
  | none => false
  | some s => decide (s ≠ "")

/-- Storage after both keys are removed (`localStorage.removeItem` twice). -/
def clearedStorage : Storage := ⟨none, none⟩

/-- The request interceptor: read `access_token` fresh from storage; if
truthy, set `config.headers.Authorization = "Bearer " + token`; otherwise
leave the config untouched. -/
def requestInterceptor (st : Storage) (config : Request) : Request :=
  { config with
    auth :=
      if truthy st.access_token then some ("Bearer " ++ st.access_token.getD "")
      else config.auth }

/-- The raw refresh call's request: `axios.post("/api/v1/auth/refresh",
{ refresh_token })` — no interceptors, so no `Authorization` header and no
retry marker. -/
def refreshRequest (refreshToken : String) : Request :=
  { path := "/api/v1/auth/refresh", body := refreshToken, auth := none, retry := false }

/-- One `api(config)` call: request interceptor, transport, then the
response interceptor.  On a 401 whose config does not carry `_retry`, mark
it, read the refresh token (falsy ⇒ clear storage, redirect, reject the
original error), issue the raw refresh post, and on success persist the
new pair, rewrite the `Authorization` header and resend through `api`
itself; on refresh failure (or malformed envelope) clear storage, redirect
and reject the refresh error.  Every other error is rejected unchanged. -/
def api (w : World) (st : Storage) (config : Request) : RunResult :=
  let sent := requestInterceptor st config
  match w.transport sent with
  | .success resp => ⟨.ok resp, st, [.apiSend sent]⟩
  | .failure status payload =>
    let error : AxiosError := ⟨sent, status, payload⟩
    if h : status = some 401 ∧ sent.retry = false then
      let originalRequest : Request := { sent with retry := true }
      if truthy st.refresh_token = false then
        ⟨.rejected (.fromBackend error), clearedStorage,
          [.apiSend sent, .redirect "/auth"]⟩
      else
        let refreshToken := st.refresh_token.getD ""
        match w.transport (refreshRequest refreshToken) with
        | .success refreshResp =>
          match w.decodePair refreshResp.body with
          | some pair =>
            let st' : Storage := ⟨some pair.access_token, some pair.refresh_token⟩
            let retried : Request :=
              { originalRequest with auth := some ("Bearer " ++ pair.access_token) }
            let inner := api w st' retried
            ⟨inner.outcome, inner.storage,
              [.apiSend sent, .refreshPost (refreshRequest refreshToken)] ++ inner.trace⟩
          | none =>
            ⟨.rejected (.decodeFailure refreshResp.body), clearedStorage,
              [.apiSend sent, .refreshPost (refreshRequest refreshToken), .redirect "/auth"]⟩
        | .failure rStatus rPayload =>
          ⟨.rejected (.fromRefresh ⟨refreshRequest refreshToken, rStatus, rPayload⟩),
            clearedStorage,
            [.apiSend sent, .refreshPost (refreshRequest refreshToken), .redirect "/auth"]⟩
    else
      ⟨.rejected (.fromBackend error), st, [.apiSend sent]⟩
termination_by (if config.retry then 0 else 1)
decreasing_by
  have hc : config.retry = false := h.2
  simp [hc]

/-- Number of refresh attempts (raw `axios.post` calls to the refresh
endpoint) recorded in a trace. -/
def refreshAttempts (trace : List Event) : Nat :=
  trace.countP fun e => match e with | .refreshPost _ => true | _ => false

/-- Whether a trace contains the redirect to the unauthenticated entry
point (`window.location.href = "/auth"`). -/
def redirected (trace : List Event) : Bool :=
  trace.contains (.redirect "/auth")

/-! ## SessionStore (`AuthProvider` in the auth context module) -/

/-- React state of the `AuthProvider`: current user (opaque profile data
published by `setUser`) and the `isLoading` flag. -/
structure SessionState where
  user : Option String
  isLoading : Bool
  deriving Repr, DecidableEq

/-- Store-level observable events during startup: the `refreshUser()`
invocation, the HTTP/navigation events it causes, `setUser`, and
`setIsLoading(false)`. -/
inductive StoreEvent where
  | refreshUserInvoked
  | apiEvent (e : Event)
  | setUser (u : Option String)
  | setLoadingFalse
  deriving Repr, DecidableEq

/-- `refreshUser`: `api.get("/users/me")`; on success publish
`response.data.data`; on any failure `logout()` (remove both storage keys
and publish no user). -/
def refreshUser (w : World) (st : Storage) (s : SessionState) :
    Storage × SessionState × List StoreEvent :=
  let r := api w st { path := "/users/me", body := "", auth := none, retry := false }
  match r.outcome with
  | .ok resp =>
    (r.storage, { s with user := some resp.body },
      r.trace.map .apiEvent ++ [.setUser (some resp.body)])
  | .rejected _ =>
    (clearedStorage, { s with user := none },
      r.trace.map .apiEvent ++ [.setUser none])

/-- `initAuth`: on startup read `access_token`; if truthy, `await
refreshUser()`; in either case finish with `setIsLoading(false)`. -/
def initAuth (w : World) (st : Storage) (s : SessionState) :
    Storage × SessionState × List StoreEvent :=
  if truthy st.access_token then
    let r := refreshUser w st s
    (r.1, { r.2.1 with isLoading := false },
      .refreshUserInvoked :: r.2.2 ++ [.setLoadingFalse])
  else
    (st, { s with isLoading := false }, [.setLoadingFalse])

/-! ## Concrete fixtures (worlds, storage and configs used as witnesses) -/

/-- A caller request to the podcast list, no header, not yet retried. -/
def demoConfig : Request := ⟨"/podcasts/", "", none, false⟩

/-- Storage holding the initial pair `a1` / `r1`. -/
def demoStorage : Storage := ⟨some "a1", some "r1"⟩

/-- A backend that answers every call with a 200 response. -/
def passWorld : World := ⟨fun _ => .success ⟨200, "list"⟩, fun _ => none⟩

/-- A backend where the original request 401s, the refresh succeeds with
the pair `a2` / `r2`, and the resend bearing `a2` succeeds. -/
def refreshOkWorld : World :=
  ⟨fun req =>
    if req.path = "/api/v1/auth/refresh" then .success ⟨200, "env"⟩
    else if req.auth = some "Bearer a2" then .success ⟨200, "list"⟩
    else .failure (some 401) "expired",
   fun b => if b = "env" then some ⟨"a2", "r2"⟩ else none⟩

/-- A backend where every non-refresh call 401s even after a successful
refresh to the pair `a2` / `r2`. -/
def always401World : World :=
  ⟨fun req =>
    if req.path = "/api/v1/auth/refresh" then .success ⟨200, "env"⟩
    else .failure (some 401) "expired",
   fun b => if b = "env" then some ⟨"a2", "r2"⟩ else none⟩

/-- A backend where every non-refresh call 401s and the refresh endpoint
itself fails with a 500. -/
def refreshDownWorld : World :=
  ⟨fun req =>
    if req.path = "/api/v1/auth/refresh" then .failure (some 500) "boom"
    else .failure (some 401) "expired",
   fun _ => none⟩

/-- A backend that answers every call with a 404 failure. -/
def notFoundWorld : World := ⟨fun _ => .failure (some 404) "missing", fun _ => none⟩

/-! ## Helper lemmas -/

/-- The request interceptor never touches the retry marker. -/
theorem requestInterceptor_retry (st : Storage) (config : Request) :
    (requestInterceptor st config).retry = config.retry := rfl

/-- The request interceptor never touches the path. -/
theorem requestInterceptor_path (st : Storage) (config : Request) :
    (requestInterceptor st config).path = config.path := rfl

/-- The request interceptor never touches the body. -/
theorem requestInterceptor_body (st : Storage) (config : Request) :
    (requestInterceptor st config).body = config.body := rfl

/-- A request already carrying the retry marker is sent once and its
outcome — success or any failure — is returned directly: no refresh, no
storage mutation, no redirect. -/
theorem api_retry_true (w : World) (st : Storage) (req : Request)
    (h : req.retry = true) :
    api w st req =
      ⟨(match w.transport (requestInterceptor st req) with
        | .success resp => .ok resp
        | .failure s p => .rejected (.fromBackend ⟨requestInterceptor st req, s, p⟩)),
       st, [.apiSend (requestInterceptor st req)]⟩ := by
  rw [api]
  cases hT : w.transport (requestInterceptor st req) with
  | success resp => simp [hT]
  | failure s p => simp [hT, requestInterceptor_retry, h]

/-! ## Claim theorems -/

/-- C5: for every request whose transport result is a success (no 401 is
received), the response is returned to the caller unchanged, storage is
untouched, and the only event is the send itself. -/
theorem success_passthrough (w : World) (st : Storage) (config : Request)
    (resp : Response)
    (h : w.transport (requestInterceptor st config) = .success resp) :
    api w st config = ⟨.ok resp, st, [.apiSend (requestInterceptor st config)]⟩ := by
  rw [api]
  simp [h]

/-- Witness for C5 at a concrete world, storage and request. -/
theorem success_passthrough_witness :
    passWorld.transport (requestInterceptor demoStorage demoConfig) =
      .success ⟨200, "list"⟩ ∧
    api passWorld demoStorage demoConfig =
      ⟨.ok ⟨200, "list"⟩, demoStorage, [.apiSend (requestInterceptor demoStorage demoConfig)]⟩ :=
  ⟨rfl, success_passthrough passWorld demoStorage demoConfig ⟨200, "list"⟩ rfl⟩

/-- C3: for every request that receives a 401 without the retry marker,
when the refresh credential is absent in storage: both keys are cleared,
the redirect to `/auth` is triggered, the caller receives the original
401 error, and no refresh call is issued. -/
theorem no_refresh_token_logout (w : World) (st : Storage) (config : Request)
    (p : String)
    (hretry : config.retry = false)
    (h401 : w.transport (requestInterceptor st config) = .failure (some 401) p)
    (habs : st.refresh_token = none) :
    api w st config =
      ⟨.rejected (.fromBackend ⟨requestInterceptor st config, some 401, p⟩),
        clearedStorage,
        [.apiSend (requestInterceptor st config), .redirect "/auth"]⟩ ∧
    refreshAttempts (api w st config).trace = 0 := by
  have hmain : api w st config =
      ⟨.rejected (.fromBackend ⟨requestInterceptor st config, some 401, p⟩),
        clearedStorage,
        [.apiSend (requestInterceptor st config), .redirect "/auth"]⟩ := by
    rw [api]
    simp [h401, requestInterceptor_retry, hretry, habs, truthy]
  exact ⟨hmain, by rw [hmain]; rfl⟩

/-- Witness for C3 at a concrete world, storage and request. -/
theorem no_refresh_token_logout_witness :
    demoConfig.retry = false ∧
    always401World.transport (requestInterceptor ⟨some "a1", none⟩ demoConfig) =
      .failure (some 401) "expired" ∧
    (Storage.mk (some "a1") none).refresh_token = none ∧
    (api always401World ⟨some "a1", none⟩ demoConfig =
      ⟨.rejected (.fromBackend ⟨requestInterceptor ⟨some "a1", none⟩ demoConfig, some 401, "expired"⟩),
        clearedStorage,
        [.apiSend (requestInterceptor ⟨some "a1", none⟩ demoConfig), .redirect "/auth"]⟩ ∧
     refreshAttempts (api always401World ⟨some "a1", none⟩ demoConfig).trace = 0) :=
  ⟨rfl, rfl, rfl,
    no_refresh_token_logout always401World ⟨some "a1", none⟩ demoConfig "expired" rfl rfl rfl⟩

/-- C4: for every request that receives a 401 without the retry marker,
when the dedicated refresh call itself fails: both keys are cleared, the
redirect fires, and the caller receives the refresh error — never the
original backend 401. -/
theorem refresh_failure_logout (w : World) (st : Storage) (config : Request)
    (p rt : String) (rs : Option Nat) (rp : String)
    (hretry : config.retry = false)
    (h401 : w.transport (requestInterceptor st config) = .failure (some 401) p)
    (hrt : st.refresh_token = some rt) (hne : rt ≠ "")
    (hpost : w.transport (refreshRequest rt) = .failure rs rp) :
    api w st config =
      ⟨.rejected (.fromRefresh ⟨refreshRequest rt, rs, rp⟩), clearedStorage,
        [.apiSend (requestInterceptor st config), .refreshPost (refreshRequest rt),
         .redirect "/auth"]⟩ ∧
    ∀ e : AxiosError, (api w st config).outcome ≠ .rejected (.fromBackend e) := by
  have hmain : api w st config =
      ⟨.rejected (.fromRefresh ⟨refreshRequest rt, rs, rp⟩), clearedStorage,
        [.apiSend (requestInterceptor st config), .refreshPost (refreshRequest rt),
         .redirect "/auth"]⟩ := by
    rw [api]
    simp [h401, requestInterceptor_retry, hretry, hrt, truthy, hne, hpost]
  refine ⟨hmain, fun e => ?_⟩
  rw [hmain]
  simp

/-- Witness for C4 at a concrete world, storage and request. -/
theorem refresh_failure_logout_witness :
    demoConfig.retry = false ∧
    refreshDownWorld.transport (requestInterceptor demoStorage demoConfig) =
      .failure (some 401) "expired" ∧
    demoStorage.refresh_token = some "r1" ∧
    refreshDownWorld.transport (refreshRequest "r1") = .failure (some 500) "boom" ∧
    (api refreshDownWorld demoStorage demoConfig =
      ⟨.rejected (.fromRefresh ⟨refreshRequest "r1", some 500, "boom"⟩), clearedStorage,
        [.apiSend (requestInterceptor demoStorage demoConfig),
         .refreshPost (refreshRequest "r1"), .redirect "/auth"]⟩ ∧
     ∀ e : AxiosError,
       (api refreshDownWorld demoStorage demoConfig).outcome ≠ .rejected (.fromBackend e)) :=
  ⟨rfl, rfl, rfl, rfl,
    refresh_failure_logout refreshDownWorld demoStorage demoConfig "expired" "r1"
      (some 500) "boom" rfl rfl rfl (by decide) rfl⟩

/-- C1: for every request that receives a 401 without the retry marker,
when the refresh call succeeds: both storage keys are set to the new pair,
the original request's header is replaced with the new bearer credential,
it is resent through `api` itself (carrying the retry marker), and the
caller receives the outcome of that resend. -/
theorem refresh_success_retries (w : World) (st : Storage) (config : Request)
    (p rt : String) (refreshResp : Response) (pair : TokenPair)
    (hretry : config.retry = false)
    (h401 : w.transport (requestInterceptor st config) = .failure (some 401) p)
    (hrt : st.refresh_token = some rt) (hne : rt ≠ "")
    (hpost : w.transport (refreshRequest rt) = .success refreshResp)
    (hdec : w.decodePair refreshResp.body = some pair) :
    api w st config =
      ⟨(api w ⟨some pair.access_token, some pair.refresh_token⟩
          { (requestInterceptor st config) with
            retry := true, auth := some ("Bearer " ++ pair.access_token) }).outcome,
        ⟨some pair.access_token, some pair.refresh_token⟩,
        .apiSend (requestInterceptor st config) ::
          .refreshPost (refreshRequest rt) ::
          (api w ⟨some pair.access_token, some pair.refresh_token⟩
            { (requestInterceptor st config) with
              retry := true, auth := some ("Bearer " ++ pair.access_token) }).trace⟩ := by
  conv_lhs => rw [api]
  simp [h401, requestInterceptor_retry, hretry, hrt, truthy, hne, hpost, hdec,
    api_retry_true]

/-- Witness for C1 at a concrete world, storage and request: the refresh
stores `a2` / `r2` and the resend succeeds with the podcast list. -/
theorem refresh_success_retries_witness :
    demoConfig.retry = false ∧
    refreshOkWorld.transport (requestInterceptor demoStorage demoConfig) =
      .failure (some 401) "expired" ∧
    demoStorage.refresh_token = some "r1" ∧
    refreshOkWorld.transport (refreshRequest "r1") = .success ⟨200, "env"⟩ ∧
    refreshOkWorld.decodePair "env" = some ⟨"a2", "r2"⟩ ∧
    api refreshOkWorld demoStorage demoConfig =
      ⟨(api refreshOkWorld ⟨some "a2", some "r2"⟩
          { (requestInterceptor demoStorage demoConfig) with
            retry := true, auth := some ("Bearer " ++ "a2") }).outcome,
        ⟨some "a2", some "r2"⟩,
        .apiSend (requestInterceptor demoStorage demoConfig) ::
          .refreshPost (refreshRequest "r1") ::
          (api refreshOkWorld ⟨some "a2", some "r2"⟩
            { (requestInterceptor demoStorage demoConfig) with
              retry := true, auth := some ("Bearer " ++ "a2") }).trace⟩ :=
  ⟨rfl, rfl, rfl, rfl, rfl,
    refresh_success_retries refreshOkWorld demoStorage demoConfig "expired" "r1"
      ⟨200, "env"⟩ ⟨"a2", "r2"⟩ rfl rfl rfl (by decide) rfl rfl⟩

/-- C7: every failure whose status is not 401, and every 401 on a request
already carrying the retry marker, is propagated unchanged to the caller:
no retry, no refresh attempt, no storage mutation, no redirect. -/
theorem other_failures_passthrough (w : World) (st : Storage) (config : Request)
    (s : Option Nat) (p : String)
    (h : w.transport (requestInterceptor st config) = .failure s p)
    (hcond : s ≠ some 401 ∨ config.retry = true) :
    api w st config =
      ⟨.rejected (.fromBackend ⟨requestInterceptor st config, s, p⟩), st,
        [.apiSend (requestInterceptor st config)]⟩ := by
  rw [api]
  rcases hcond with hc | hc
  · simp [h, hc]
  · simp [h, requestInterceptor_retry, hc]

/-- Witness for C7 at a concrete 404-answering world. -/
theorem other_failures_passthrough_witness :
    notFoundWorld.transport (requestInterceptor demoStorage demoConfig) =
      .failure (some 404) "missing" ∧
    (some 404 ≠ some 401 ∨ demoConfig.retry = true) ∧
    api notFoundWorld demoStorage demoConfig =
      ⟨.rejected (.fromBackend ⟨requestInterceptor demoStorage demoConfig, some 404, "missing"⟩),
        demoStorage, [.apiSend (requestInterceptor demoStorage demoConfig)]⟩ :=
  ⟨rfl, Or.inl (by decide),
    other_failures_passthrough notFoundWorld demoStorage demoConfig (some 404) "missing"
      rfl (Or.inl (by decide))⟩

/-- The podcast request already carrying the retry marker. -/
def retriedConfig : Request := ⟨"/podcasts/", "", none, true⟩

/-- C6 (counterexample): a request that fails with 401 while already
carrying the retry marker leaves storage untouched (and non-empty) and
fires no redirect, contradicting the claimed clearing and redirect. -/
theorem retried_401_side_effects_counterexample :
    retriedConfig.retry = true ∧
    always401World.transport (requestInterceptor demoStorage retriedConfig) =
      .failure (some 401) "expired" ∧
    (api always401World demoStorage retriedConfig).storage = demoStorage ∧
    demoStorage ≠ clearedStorage ∧
    redirected (api always401World demoStorage retriedConfig).trace = false := by
  refine ⟨rfl, rfl, ?_, by decide, ?_⟩
  · rw [api_retry_true always401World demoStorage retriedConfig rfl]
  · rw [api_retry_true always401World demoStorage retriedConfig rfl]
    rfl

/-- C6 (amended): a 401 on a request already carrying the retry marker is
surfaced to the caller as the unchanged backend failure; storage is left
untouched and no redirect fires at that point. -/
theorem retried_401_surfaced (w : World) (st : Storage) (config : Request)
    (p : String)
    (hretry : config.retry = true)
    (h401 : w.transport (requestInterceptor st config) = .failure (some 401) p) :
    api w st config =
      ⟨.rejected (.fromBackend ⟨requestInterceptor st config, some 401, p⟩), st,
        [.apiSend (requestInterceptor st config)]⟩ := by
  rw [api_retry_true w st config hretry, h401]

/-- Witness for the amended C6 at a concrete world and retried request. -/
theorem retried_401_surfaced_witness :
    retriedConfig.retry = true ∧
    always401World.transport (requestInterceptor demoStorage retriedConfig) =
      .failure (some 401) "expired" ∧
    api always401World demoStorage retriedConfig =
      ⟨.rejected (.fromBackend ⟨requestInterceptor demoStorage retriedConfig, some 401, "expired"⟩),
        demoStorage, [.apiSend (requestInterceptor demoStorage retriedConfig)]⟩ :=
  ⟨rfl, rfl, retried_401_surfaced always401World demoStorage retriedConfig "expired" rfl rfl⟩

/-- Across one whole `api` call — resend included — at most one refresh
post is ever issued. -/
theorem refreshAttempts_api_le_one (w : World) (st : Storage) (config : Request) :
    refreshAttempts (api w st config).trace ≤ 1 := by
  rw [api]
  cases hT : w.transport (requestInterceptor st config) with
  | success resp => simp [refreshAttempts]
  | failure s p =>
    by_cases hc : s = some 401 ∧ (requestInterceptor st config).retry = false
    · by_cases hrt : truthy st.refresh_token = false
      · simp [hc, hrt, refreshAttempts]
      · cases hP : w.transport (refreshRequest (st.refresh_token.getD "")) with
        | success rresp =>
          cases hD : w.decodePair rresp.body with
          | some pair =>
            simp [hc, hrt, hP, hD, refreshAttempts, api_retry_true, List.countP_append]
          | none => simp [hc, hrt, hP, hD, refreshAttempts]
        | failure a b => simp [hc, hrt, hP, refreshAttempts]
    · simp [hc, refreshAttempts]

/-- C2: at most one refresh attempt occurs per failed request, the resend
carries the retry marker, and when the resend itself comes back 401 that
second 401 is surfaced to the caller with no second refresh attempt. -/
theorem single_refresh_per_request (w : World) (st : Storage) (config : Request) :
    refreshAttempts (api w st config).trace ≤ 1 ∧
    (∀ (p rt : String) (refreshResp : Response) (pair : TokenPair) (p2 : String),
      config.retry = false →
      w.transport (requestInterceptor st config) = .failure (some 401) p →
      st.refresh_token = some rt → rt ≠ "" →
      w.transport (refreshRequest rt) = .success refreshResp →
      w.decodePair refreshResp.body = some pair →
      w.transport (requestInterceptor ⟨some pair.access_token, some pair.refresh_token⟩
          { (requestInterceptor st config) with
            retry := true, auth := some ("Bearer " ++ pair.access_token) }) =
        .failure (some 401) p2 →
      (api w st config).outcome =
        .rejected (.fromBackend
          ⟨requestInterceptor ⟨some pair.access_token, some pair.refresh_token⟩
            { (requestInterceptor st config) with
              retry := true, auth := some ("Bearer " ++ pair.access_token) },
           some 401, p2⟩) ∧
      refreshAttempts (api w st config).trace = 1) := by
  refine ⟨refreshAttempts_api_le_one w st config, ?_⟩
  intro p rt refreshResp pair p2 hretry h401 hrt hne hpost hdec h401b
  constructor
  · conv_lhs => rw [api]
    simp [h401, requestInterceptor_retry, hretry, hrt, truthy, hne, hpost, hdec,
      api_retry_true, h401b]
  · rw [api]
    simp [h401, requestInterceptor_retry, hretry, hrt, truthy, hne, hpost, hdec,
      api_retry_true, refreshAttempts, List.countP_append]

/-- Witness for C2: with every non-refresh call answering 401, the resend
also 401s; the caller gets that second 401 and exactly one refresh ran. -/
theorem single_refresh_per_request_witness :
    refreshAttempts (api always401World demoStorage demoConfig).trace ≤ 1 ∧
    ((api always401World demoStorage demoConfig).outcome =
      .rejected (.fromBackend
        ⟨requestInterceptor ⟨some "a2", some "r2"⟩
          { (requestInterceptor demoStorage demoConfig) with
            retry := true, auth := some ("Bearer " ++ "a2") },
         some 401, "expired"⟩) ∧
     refreshAttempts (api always401World demoStorage demoConfig).trace = 1) :=
  ⟨(single_refresh_per_request always401World demoStorage demoConfig).1,
    (single_refresh_per_request always401World demoStorage demoConfig).2
      "expired" "r1" ⟨200, "env"⟩ ⟨"a2", "r2"⟩ "expired"
      rfl rfl rfl (by decide) rfl rfl rfl⟩

/-- C10: the refresh call goes out as a bare request — no `Authorization`
header and no retry marker, whatever storage holds — and when the refresh
call itself fails (a 401 included) its failure is handed to the caller
without ever being intercepted for a nested refresh cycle. -/
theorem raw_refresh_client (w : World) (st : Storage) (config : Request) :
    (∀ r : Request, Event.refreshPost r ∈ (api w st config).trace →
      r.auth = none ∧ r.retry = false) ∧
    (∀ (p rt : String) (rs : Option Nat) (rp : String),
      config.retry = false →
      w.transport (requestInterceptor st config) = .failure (some 401) p →
      st.refresh_token = some rt → rt ≠ "" →
      w.transport (refreshRequest rt) = .failure rs rp →
      (api w st config).outcome = .rejected (.fromRefresh ⟨refreshRequest rt, rs, rp⟩) ∧
      refreshAttempts (api w st config).trace = 1) := by
  constructor
  · rw [api]
    cases hT : w.transport (requestInterceptor st config) with
    | success resp => intro r hr; simp at hr
    | failure s p =>
      by_cases hc : s = some 401 ∧ (requestInterceptor st config).retry = false
      · by_cases hrt : truthy st.refresh_token = false
        · intro r hr
          simp [hc, hrt] at hr
        · cases hP : w.transport (refreshRequest (st.refresh_token.getD "")) with
          | success rresp =>
            cases hD : w.decodePair rresp.body with
            | some pair =>
              intro r hr
              simp [hc, hrt, hP, hD, api_retry_true] at hr
              rw [show r = refreshRequest (st.refresh_token.getD "") from hr]
              exact ⟨rfl, rfl⟩
            | none =>
              intro r hr
              simp [hc, hrt, hP, hD] at hr
              rw [show r = refreshRequest (st.refresh_token.getD "") from hr]
              exact ⟨rfl, rfl⟩
          | failure a b =>
            intro r hr
            simp [hc, hrt, hP] at hr
            rw [show r = refreshRequest (st.refresh_token.getD "") from hr]
            exact ⟨rfl, rfl⟩
      · intro r hr
        simp [hc] at hr
  · intro p rt rs rp hretry h401 hrt hne hpost
    constructor
    · conv_lhs => rw [api]
      simp [h401, requestInterceptor_retry, hretry, hrt, truthy, hne, hpost]
    · rw [api]
      simp [h401, requestInterceptor_retry, hretry, hrt, truthy, hne, hpost,
        refreshAttempts]

/-- Witness for C10: the refresh endpoint answers 500 — the caller gets
that refresh failure after exactly one bare refresh attempt. -/
theorem raw_refresh_client_witness :
    (∀ r : Request,
      Event.refreshPost r ∈ (api refreshDownWorld demoStorage demoConfig).trace →
      r.auth = none ∧ r.retry = false) ∧
    ((api refreshDownWorld demoStorage demoConfig).outcome =
      .rejected (.fromRefresh ⟨refreshRequest "r1", some 500, "boom"⟩) ∧
     refreshAttempts (api refreshDownWorld demoStorage demoConfig).trace = 1) :=
  ⟨(raw_refresh_client refreshDownWorld demoStorage demoConfig).1,
    (raw_refresh_client refreshDownWorld demoStorage demoConfig).2
      "expired" "r1" (some 500) "boom" rfl rfl rfl (by decide) rfl⟩

/-- A caller request that already carries an `Authorization` header. -/
def staleAuthConfig : Request := ⟨"/podcasts/", "", some "Bearer stale", false⟩

/-- Storage with both keys absent. -/
def emptyStorage : Storage := ⟨none, none⟩

/-- C8 (counterexample): with no access credential in storage, a request
that already carries an `Authorization` header is sent with that header
intact — not "without an Authorization header" as claimed. -/
theorem stale_header_kept_counterexample :
    truthy emptyStorage.access_token = false ∧
    requestInterceptor emptyStorage staleAuthConfig = staleAuthConfig ∧
    staleAuthConfig.auth ≠ none := by
  exact ⟨rfl, rfl, by decide⟩

/-- C8 (amended): the access credential is read fresh from storage on
every send — the request handed to the transport is always the
interceptor applied to current storage — and the interceptor attaches
`Bearer <token>` exactly when the stored credential is non-empty,
otherwise passing the request through unmodified (any `Authorization`
header it already carries included). -/
theorem request_interceptor_spec (w : World) (st : Storage) (config : Request) :
    (truthy st.access_token = true →
      requestInterceptor st config =
        { config with auth := some ("Bearer " ++ st.access_token.getD "") }) ∧
    (truthy st.access_token = false → requestInterceptor st config = config) ∧
    (api w st config).trace.head? = some (.apiSend (requestInterceptor st config)) := by
  refine ⟨fun h => ?_, fun h => ?_, ?_⟩
  · simp [requestInterceptor, h]
  · simp [requestInterceptor, h]
  · rw [api]
    cases hT : w.transport (requestInterceptor st config) with
    | success resp => simp
    | failure s p =>
      by_cases hc : s = some 401 ∧ (requestInterceptor st config).retry = false
      · by_cases hrt : truthy st.refresh_token = false
        · simp [hc, hrt]
        · cases hP : w.transport (refreshRequest (st.refresh_token.getD "")) with
          | success rresp =>
            cases hD : w.decodePair rresp.body with
            | some pair => simp [hc, hrt, hP, hD]
            | none => simp [hc, hrt, hP, hD]
          | failure a b => simp [hc, hrt, hP]
      · simp [hc]

/-- Witness for the amended C8, applied once with a non-empty stored
credential (header overwritten) and once with empty storage (request
passed through with its stale header). -/
theorem request_interceptor_spec_witness :
    truthy demoStorage.access_token = true ∧
    requestInterceptor demoStorage staleAuthConfig =
      { staleAuthConfig with auth := some ("Bearer " ++ (demoStorage.access_token.getD "")) } ∧
    truthy emptyStorage.access_token = false ∧
    requestInterceptor emptyStorage staleAuthConfig = staleAuthConfig ∧
    (api passWorld demoStorage demoConfig).trace.head? =
      some (.apiSend (requestInterceptor demoStorage demoConfig)) :=
  ⟨rfl,
    (request_interceptor_spec passWorld demoStorage staleAuthConfig).1 rfl,
    rfl,
    (request_interceptor_spec passWorld emptyStorage staleAuthConfig).2.1 rfl,
    (request_interceptor_spec passWorld demoStorage demoConfig).2.2⟩

/-- The countP predicate picking out `refreshUser` invocations. -/
def isRefreshUserInvoked (e : StoreEvent) : Bool :=
  decide (e = StoreEvent.refreshUserInvoked)

/-- The trace produced by `refreshUser` itself contains only HTTP and
`setUser` events — never a further `refreshUser` invocation marker. -/
theorem refreshUser_trace_no_invoke (w : World) (st : Storage) (s : SessionState) :
    (refreshUser w st s).2.2.countP isRefreshUserInvoked = 0 := by
  rw [refreshUser]
  cases hO : (api w st ⟨"/users/me", "", none, false⟩).outcome with
  | ok resp => simp [List.countP_append, List.countP_map, isRefreshUserInvoked,
      Function.comp, List.countP_eq_zero]
  | rejected r => simp [List.countP_append, List.countP_map, isRefreshUserInvoked,
      Function.comp, List.countP_eq_zero]

/-- C9 (counterexample): with the stored access credential present but
empty, startup clears the loading flag immediately and `refreshUser` is
never invoked, although the claim's "a stored access credential exists"
branch promises one invocation. -/
theorem startup_empty_token_counterexample :
    (Storage.mk (some "") (some "r1")).access_token = some "" ∧
    (initAuth passWorld ⟨some "", some "r1"⟩ ⟨none, true⟩).2.2 = [.setLoadingFalse] ∧
    (initAuth passWorld ⟨some "", some "r1"⟩ ⟨none, true⟩).2.2.countP
      isRefreshUserInvoked = 0 := by
  refine ⟨rfl, ?_, ?_⟩ <;> simp [initAuth, truthy, isRefreshUserInvoked]

/-- C9 (amended): on startup with a non-empty stored access credential,
`refreshUser` is invoked exactly once and all of its work precedes the
clearing of the loading flag, which is the final event; with the stored
credential absent or empty, the loading flag is cleared immediately, the
state and storage are otherwise untouched, and no fetch is issued. -/
theorem initAuth_startup_spec (w : World) (st : Storage) (s : SessionState) :
    (truthy st.access_token = true →
      (initAuth w st s).2.2 =
        .refreshUserInvoked :: (refreshUser w st s).2.2 ++ [.setLoadingFalse] ∧
      (initAuth w st s).2.2.countP isRefreshUserInvoked = 1 ∧
      (initAuth w st s).2.1.isLoading = false) ∧
    (truthy st.access_token = false →
      initAuth w st s = (st, { s with isLoading := false }, [.setLoadingFalse])) := by
  constructor
  · intro h
    refine ⟨?_, ?_, ?_⟩
    · simp [initAuth, h]
    · simp [initAuth, h, List.countP_cons, List.countP_append,
        refreshUser_trace_no_invoke, isRefreshUserInvoked]
    · simp [initAuth, h]
  · intro h
    simp [initAuth, h]

/-- Witness for the amended C9, applied at a non-empty stored credential
and at an absent one. -/
theorem initAuth_startup_spec_witness :
    truthy demoStorage.access_token = true ∧
    ((initAuth passWorld demoStorage ⟨none, true⟩).2.2 =
        .refreshUserInvoked :: (refreshUser passWorld demoStorage ⟨none, true⟩).2.2 ++
          [.setLoadingFalse] ∧
      (initAuth passWorld demoStorage ⟨none, true⟩).2.2.countP isRefreshUserInvoked = 1 ∧
      (initAuth passWorld demoStorage ⟨none, true⟩).2.1.isLoading = false) ∧
    truthy emptyStorage.access_token = false ∧
    initAuth passWorld emptyStorage ⟨none, true⟩ =
      (emptyStorage, { user := none, isLoading := false }, [.setLoadingFalse]) :=
  ⟨rfl,
    (initAuth_startup_spec passWorld demoStorage ⟨none, true⟩).1 rfl,
    rfl,
    (initAuth_startup_spec passWorld emptyStorage ⟨none, true⟩).2 rfl⟩

end EchoBrief
